import Mathlib

/-!
Shallow embedding of the go-sql-spanner driver core (src/driver.go) together
with the parts of the connection/transaction contract that the specification
describes for files that are not part of the sources at hand (the statement
parser and the transaction retry protocol, which are modelled from the spec
and marked as such on their definitions).

Machine integers (int32 connection counters, int64 row counts) are modelled
as Int; the values stay far away from any overflow boundary in every claim.
Fallible Go functions returning (T, error) are modelled as Except; the one
place where the Go code can panic (indexing the nil result of
regexp.FindStringSubmatch) is modelled by a dedicated outcome constructor.
-/

set_option linter.unusedVariables false

namespace Spanner

/-- gRPC status codes used by the driver (google.golang.org/grpc/codes). -/
inductive Code where
  | InvalidArgument
  | FailedPrecondition
  | Aborted
  | Unknown
deriving DecidableEq, Repr

/-- A status error as produced by status.Error / status.Errorf and wrapped by
spanner.ToSpannerError: a code together with the formatted message. -/
structure SErr where
  code : Code
  msg : String
deriving DecidableEq, Repr

/-- Errors surfaced by the driver: either the database/sql bad-connection
sentinel driver.ErrBadConn or a status-coded error. -/
inductive Err where
  | badConn
  | api (e : SErr)
deriving DecidableEq, Repr

/-- Extracts the status code of an error result, when the result is a
status-coded error (driver.ErrBadConn and success have no code). -/
def resultCode {α : Type} : Except Err α → Option Code
  | .error (.api e) => some e.code
  | _ => none

def invalidArg (m : String) : Err := .api { code := Code.InvalidArgument, msg := m }

def failedPrecondition (m : String) : Err := .api { code := Code.FailedPrecondition, msg := m }

/-- Outcome of a Go computation that can also panic (runtime error), in
addition to returning a value or an error. -/
inductive COutcome (α : Type) where
  | ok (a : α)
  | err (e : Err)
  | panicked (msg : String)
deriving DecidableEq, Repr

/-- Column values, abstracted to the shapes the claims inspect (the int64
literal 1 returned by the ping query, plus representative scalar kinds). -/
inductive Value where
  | vnull
  | vint (i : Int)
  | vbool (b : Bool)
  | vstring (s : String)
deriving DecidableEq, Repr

/-- spanner.Statement: the SQL text plus bound parameters (parameter values
abstracted to Value). -/
structure Statement where
  sql : String
  params : List (String × Value)
deriving DecidableEq, Repr

/-- spanner.NewStatement: a statement with the given SQL and no parameters. -/
def newStatement (q : String) : Statement := { sql := q, params := [] }

/-- time.Time commit timestamps, abstracted to an instant identifier. -/
structure Timestamp where
  v : Int
deriving DecidableEq, Repr

/-- spanner.TimestampBound, abstracted to an opaque encoding whose zero value
(raw = 0) is the zero-value bound spanner.TimestampBound\x7b\x7d (strong reads). -/
structure TimestampBound where
  raw : Nat
deriving DecidableEq, Repr

/-- driver.Result values produced by the driver: the driver.ResultNoRows
sentinel, or a result carrying a rows-affected count. -/
inductive DriverResult where
  | resultNoRows
  | result (rowsAffected : Int)
deriving DecidableEq, Repr

/- ===== Error message texts from src/driver.go ===== -/

def msgIndexOutOfRange : String := r"runtime error: index out of range"
def msgInvalidConnProp : String := r"invalid connection property: "
def msgNoCommitTs : String := r"this connection has not executed a read/write transaction that committed successfully"
def msgRetryInTx : String := r"cannot change retry mode while a transaction is active"
def msgActiveBatch : String := r"This connection already has an active batch."
def msgDDLBatchInTx : String := r"This connection has an active transaction. DDL batches in transactions are not supported."
def msgROBatchDML : String := r"This connection has an active read-only transaction. Read-only transactions cannot execute DML batches."
def msgNoActiveBatch : String := r"This connection does not have an active batch"
def msgActiveDMLBatch : String := r"This connection has an active DML batch"
def msgNotRWTx : String := r"connection is in a transaction that is not a read/write transaction"
def msgDDLInTx : String := r"cannot execute DDL as part of a transaction"
def msgInvalidDMLState : String := r"connection in invalid state for DML statements: "
def msgAlreadyInTx : String := r"already in a transaction"

/- ===== A small backtracking regular-expression engine =====

dsnRegExp in src/driver.go is a Go (RE2) regular expression; Go regexps use
leftmost-first (backtracking-preference) semantics for submatches.  The engine
below implements exactly that search order: alternation prefers its left arm,
star and option are greedy, and the overall search tries match start positions
from the left.  Captured groups record the consumed substring; groups that do
not participate in the match are absent (FindStringSubmatch reports them as
empty strings, which is how lookups below default). -/

/-- Regular expressions over characters: empty word, single character from a
class, literal word, concatenation, alternation (left-preferred), greedy
star, greedy option, and a numbered capture group. -/
inductive RE where
  | eps
  | cls (p : Char → Bool)
  | lit (w : List Char)
  | seq (a b : RE)
  | alt (a b : RE)
  | star (a : RE)
  | opt (a : RE)
  | grp (n : Nat) (a : RE)

/-- Strips w from the front of s, returning the remainder. -/
def dropWord : List Char → List Char → Option (List Char)
  | [], s => some s
  | _ :: _, [] => none
  | c :: w, d :: s => if c = d then dropWord w s else none

/-- The part of s that was consumed to reach the suffix s1. -/
def consumedPart (s s1 : List Char) : List Char := s.take (s.length - s1.length)

/-- Records a capture, overwriting an earlier capture of the same group. -/
def setCap (caps : List (Nat × List Char)) (n : Nat) (w : List Char) : List (Nat × List Char) :=
  (n, w) :: caps.filter (fun p => p.1 ≠ n)

/-- Looks up a captured group; a group that did not participate yields the
empty word, as FindStringSubmatch does. -/
def capLookup (caps : List (Nat × List Char)) (n : Nat) : List Char :=
  match caps.find? (fun p => p.1 = n) with
  | some p => p.2
  | none => []

/-- Backtracking matcher in continuation-passing style.  The continuation
receives the remaining input and the captures; the first success in
leftmost-first order wins.  Fuel bounds the recursion; it is chosen large
enough for every concrete input in this development, and the general theorems
never depend on a specific fuel value. -/
def reMatch (fuel : Nat) (re : RE) (s : List Char) (caps : List (Nat × List Char))
    (k : List Char → List (Nat × List Char) → Option (List (Nat × List Char))) :
    Option (List (Nat × List Char)) :=
  match fuel with
  | 0 => none
  | fuel + 1 =>
    match re with
    | .eps => k s caps
    | .cls p =>
      match s with
      | [] => none
      | ch :: rest => if p ch then k rest caps else none
    | .lit w =>
      match dropWord w s with
      | some rest => k rest caps
      | none => none
    | .seq a b => reMatch fuel a s caps (fun s1 c1 => reMatch fuel b s1 c1 k)
    | .alt a b =>
      match reMatch fuel a s caps k with
      | some r => some r
      | none => reMatch fuel b s caps k
    | .star a =>
      match reMatch fuel a s caps (fun s1 c1 =>
        if s1.length < s.length then reMatch fuel (.star a) s1 c1 k else none) with
      | some r => some r
      | none => k s caps
    | .opt a =>
      match reMatch fuel a s caps k with
      | some r => some r
      | none => k s caps
    | .grp n a =>
      reMatch fuel a s caps (fun s1 c1 => k s1 (setCap c1 n (consumedPart s s1)))

def reFuel : Nat := 1000000

/-- Unanchored leftmost search, as regexp.FindStringSubmatch performs: try a
match at the current position, else advance one character. Returns the
captures of the leftmost match, or none when the expression matches nowhere. -/
def reFind (re : RE) (s : List Char) : Option (List (Nat × List Char)) :=
  match reMatch reFuel re s [] (fun _ caps => some caps) with
  | some caps => some caps
  | none =>
    match s with
    | [] => none
    | _ :: rest => reFind re rest

/-- One-or-more repetition, desugared as in RE2. -/
def rePlus (a : RE) : RE := .seq a (.star a)

/- ===== The dsnRegExp character classes and structure ===== -/

/-- Perl word class backslash-w: ASCII letters, digits and underscore. -/
def isWordChar (c : Char) : Bool := c.isAlphanum || c = Char.ofNat 95

/-- The class [\w.-] used for the first host segment and for the segments
after a dot. -/
def hostHeadChar (c : Char) : Bool := isWordChar c || c = Char.ofNat 46 || c = Char.ofNat 45

/-- The final host class of dsnRegExp, which also admits URL punctuation
including the slash. -/
def hostTailChar (c : Char) : Bool :=
  isWordChar c || c = Char.ofNat 45 || c = Char.ofNat 46 || c = Char.ofNat 95 ||
  c = Char.ofNat 126 || c = Char.ofNat 58 || c = Char.ofNat 47 || c = Char.ofNat 63 ||
  c = Char.ofNat 35 || c = Char.ofNat 91 || c = Char.ofNat 93 || c = Char.ofNat 64 ||
  c = Char.ofNat 33 || c = Char.ofNat 36 || c = Char.ofNat 38 || c = Char.ofNat 39 ||
  c = Char.ofNat 40 || c = Char.ofNat 41 || c = Char.ofNat 42 || c = Char.ofNat 43 ||
  c = Char.ofNat 44 || c = Char.ofNat 59 || c = Char.ofNat 61

/-- Project-name characters: ([a-z]|[-.:]|[0-9]). -/
def projChar (c : Char) : Bool :=
  c.isLower || c.isDigit || c = Char.ofNat 45 || c = Char.ofNat 46 || c = Char.ofNat 58

/-- Instance-name characters: ([a-z]|[-]|[0-9]). -/
def instChar (c : Char) : Bool := c.isLower || c.isDigit || c = Char.ofNat 45

/-- Database-name characters: ([a-z]|[-]|[_]|[0-9]). -/
def dbChar (c : Char) : Bool :=
  c.isLower || c.isDigit || c = Char.ofNat 45 || c = Char.ofNat 95

/-- The parameter separator class [\?|;]: question mark, pipe or semicolon. -/
def sepChar (c : Char) : Bool := c = Char.ofNat 63 || c = Char.ofNat 124 || c = Char.ofNat 59

/-- Dot, the glue between host segments. -/
def isDotChar (c : Char) : Bool := c = Char.ofNat 46

/-- Any character except newline, the RE2 meaning of the dot used in the
parameter group. -/
def anyNoNl (c : Char) : Bool := c ≠ Char.ofNat 10

def projectsWord : List Char := String.toList (r"projects/")
def instancesWord : List Char := String.toList (r"/instances/")
def databasesWord : List Char := String.toList (r"/databases/")
def defaultProjectWord : List Char := String.toList (r"DEFAULT_PROJECT_ID")
def slashWord : List Char := String.toList (r"/")

/-- Capture-group numbers assigned to the named groups of dsnRegExp. -/
def hostGroup : Nat := 1
def projectGroup : Nat := 2
def instanceGroup : Nat := 3
def databaseGroup : Nat := 4
def paramsGroup : Nat := 5

/-- The host part of dsnRegExp:
[\w.-]+(?:\.[\w\.-]+)*[\w\-\._~:/?#\[\]@!\$&:()*+,;=.]+ as a capture group. -/
def hostRE : RE :=
  .grp hostGroup
    (.seq (rePlus (.cls hostHeadChar))
      (.seq (.star (.seq (.cls isDotChar) (rePlus (.cls hostHeadChar))))
        (rePlus (.cls hostTailChar))))

/-- The full dsnRegExp of src/driver.go, translated constructor by
constructor: an optional host followed by a slash, the literal projects/
segment, the project group (either a run of project characters or the literal
DEFAULT_PROJECT_ID, in that preference order), an optional instances segment
with an optional databases segment inside it, and an optional parameter tail
introduced by a character from [\?|;]. -/
def dsnRE : RE :=
  .seq (.opt (.seq hostRE (.lit slashWord)))
  (.seq (.lit projectsWord)
  (.seq (.grp projectGroup (.alt (rePlus (.cls projChar)) (.lit defaultProjectWord)))
  (.seq (.opt (.seq (.lit instancesWord)
          (.seq (.grp instanceGroup (rePlus (.cls instChar)))
            (.opt (.seq (.lit databasesWord) (.grp databaseGroup (rePlus (.cls dbChar))))))))
    (.opt (.seq (.cls sepChar) (.grp paramsGroup (.star (.cls anyNoNl))))))))

/- ===== connectorConfig and its extraction ===== -/

/-- connectorConfig of src/driver.go.  The Go field named instance is called
instanceName here because instance is a reserved word in Lean. -/
structure connectorConfig where
  host : String
  project : String
  instanceName : String
  database : String
  params : List (String × String)
deriving DecidableEq, Repr

/-- Inserts a key/value pair into the parameter map, overwriting an earlier
binding of the same key, as assignment into a Go map does. -/
def paramsInsert (l : List (String × String)) (k v : String) : List (String × String) :=
  (k, v) :: l.filter (fun p => p.1 ≠ k)

/-- Looks a key up in the parameter map. -/
def paramsLookup (l : List (String × String)) (k : String) : Option String :=
  match l.find? (fun p => p.1 = k) with
  | some p => some p.2
  | none => none

/-- Splits at the first equals sign, as strings.SplitN(s, "=", 2): the result
has two parts when an equals sign occurs, otherwise the split fails (the Go
call returns a one-element slice, which the caller rejects). -/
def splitAtEq : List Char → Option (List Char × List Char)
  | [] => none
  | ch :: rest =>
    if ch = Char.ofNat 61 then some ([], rest)
    else
      match splitAtEq rest with
      | some (a, b) => some (ch :: a, b)
      | none => none

/-- Splits on semicolons with the semantics of strings.Split for a one
character separator: the empty input yields one empty part, and adjacent
separators yield empty parts. -/
def splitOnSemi : List Char → List (List Char)
  | [] => [[]]
  | c :: rest =>
    match splitOnSemi rest with
    | [] => [[]]
    | g :: gs => if c = Char.ofNat 59 then [] :: g :: gs else (c :: g) :: gs

/-- The loop body of extractConnectorParams: empty entries are skipped,
entries without an equals sign fail with InvalidArgument, and keys are
lowercased (strings.ToLower) before insertion. -/
def extractConnectorParamsLoop : List (List Char) → List (String × String) →
    Except Err (List (String × String))
  | [], acc => .ok acc
  | kv :: rest, acc =>
    if kv.isEmpty then extractConnectorParamsLoop rest acc
    else
      match splitAtEq kv with
      | some (k, v) =>
        extractConnectorParamsLoop rest
          (paramsInsert acc (String.mk (k.map Char.toLower)) (String.mk v))
      | none => .error (invalidArg (msgInvalidConnProp ++ String.mk kv))

/-- extractConnectorParams of src/driver.go. -/
def extractConnectorParams (paramsString : String) : Except Err (List (String × String)) :=
  if paramsString = r"" then .ok []
  else extractConnectorParamsLoop (splitOnSemi paramsString.toList) []

/-- extractConnectorConfig of src/driver.go.  The Go code indexes the result
of dsnRegExp.FindStringSubmatch without a nil check, so a dsn the regular
expression does not match anywhere makes the loop over SubexpNames panic with
an index-out-of-range runtime error; that is modelled by the panicked
outcome. -/
def extractConnectorConfig (dsn : String) : COutcome connectorConfig :=
  match reFind dsnRE dsn.toList with
  | none => .panicked msgIndexOutOfRange
  | some caps =>
    match extractConnectorParams (String.mk (capLookup caps paramsGroup)) with
    | .error e => .err e
    | .ok params =>
      .ok { host := String.mk (capLookup caps hostGroup)
            project := String.mk (capLookup caps projectGroup)
            instanceName := String.mk (capLookup caps instanceGroup)
            database := String.mk (capLookup caps databaseGroup)
            params := params }

/-- strconv.ParseBool: the exact set of accepted spellings. -/
def goParseBool (s : String) : Option Bool :=
  if [r"1", r"t", r"T", r"TRUE", r"true", r"True"].contains s then some true
  else if [r"0", r"f", r"F", r"FALSE", r"false", r"False"].contains s then some false
  else none

/- ===== Batches, transactions and the connection record ===== -/

/-- batchType of src/driver.go. -/
inductive BatchType where
  | ddl
  | dml
deriving DecidableEq, Repr

/-- batch of src/driver.go: the kind plus the accumulated statements in
submission order. -/
structure Batch where
  tp : BatchType
  statements : List Statement
deriving DecidableEq, Repr

/-- The contextTransaction interface (implemented by readOnlyTransaction and
readWriteTransaction in the repository file transaction.go, which is not
among the sources here).  Only the state the connection inspects is kept: the
variant tag, and for the read/write variant its nested DML batch. -/
inductive Tx where
  | readOnly
  | readWrite (batch : Option Batch)
deriving DecidableEq, Repr

/-- AutocommitDMLMode is an integer type in the source; values other than the
two named constants are possible and are rejected by ExecContext. -/
def Transactional : Int := 0
def PartitionedNonAtomic : Int := 1

def modeTransactionalName : String := r"Transactional"
def modePartitionedName : String := r"Partitioned_Non_Atomic"

/-- AutocommitDMLMode.String of src/driver.go. -/
def modeString (mode : Int) : String :=
  if mode = Transactional then modeTransactionalName
  else if mode = PartitionedNonAtomic then modePartitionedName
  else r""

/-- conn of src/driver.go.  The three exec function fields of the Go struct
(execSingleQuery, execSingleDMLTransactional, execSingleDMLPartitioned) are
modelled by the Backend record below, and the client pointers by the client
identifiers handed out by the connector. -/
structure Conn where
  connectorId : Nat
  connectorDsn : String
  clientId : Nat
  adminClientId : Nat
  database : String
  closed : Bool
  tx : Option Tx
  commitTs : Option Timestamp
  retryAborts : Bool
  batch : Option Batch
  autocommitDMLMode : Int
  readOnlyStaleness : TimestampBound
deriving DecidableEq, Repr

/-- conn.inTransaction. -/
def Conn.inTransaction (c : Conn) : Bool := c.tx.isSome

/-- conn.inReadOnlyTransaction. -/
def Conn.inReadOnlyTransaction (c : Conn) : Bool :=
  match c.tx with
  | some .readOnly => true
  | _ => false

/-- conn.inReadWriteTransaction. -/
def Conn.inReadWriteTransaction (c : Conn) : Bool :=
  match c.tx with
  | some (.readWrite _) => true
  | _ => false

/-- conn.InDDLBatch. -/
def Conn.inDDLBatch (c : Conn) : Bool :=
  match c.batch with
  | some bt => bt.tp = BatchType.ddl
  | none => false

/-- conn.InDMLBatch: a connection-level DML batch, or the nested batch of an
active read/write transaction. -/
def Conn.inDMLBatch (c : Conn) : Bool :=
  (match c.batch with
   | some bt => bt.tp = BatchType.dml
   | none => false) ||
  (match c.tx with
   | some (.readWrite nb) => nb.isSome
   | _ => false)

/-- conn.inBatch. -/
def Conn.inBatch (c : Conn) : Bool := c.inDDLBatch || c.inDMLBatch

/-- conn.IsValid (driver.Validator). -/
def Conn.isValid (c : Conn) : Bool := !c.closed

/- ===== Connector registry and driver world =====

The Driver struct holds a mutex-guarded map from dsn to connector; each
connector owns lazily created client handles (sync.Once) and an atomic live
connection counter.  Concurrency collapses to sequential interleaving here:
every claim about this state is about the sequential transition structure.
Client construction is modelled as allocation of fresh client identifiers
(the success path of the sync.Once initializer); construction failures are
an external-collaborator behavior no claim touches. -/

/-- connector of src/driver.go (the state the claims inspect). -/
structure ConnectorS where
  dsn : String
  cfg : connectorConfig
  retryAbortsInternally : Bool
  clients : Option (Nat × Nat)
  connCount : Int
  clientsClosed : Bool
deriving DecidableEq, Repr

/-- The Driver struct: the dsn-to-connector registry, with connectors kept in
a heap keyed by identity so that a connection can still reach its connector
after deregistration, plus allocation counters. -/
structure DriverS where
  registry : List (String × Nat)
  heap : List (Nat × ConnectorS)
  nextConnectorId : Nat
  nextClientId : Nat
deriving DecidableEq, Repr

/-- The driver as registered by init: no connectors. -/
def initialDriver : DriverS :=
  { registry := [], heap := [], nextConnectorId := 0, nextClientId := 0 }

def rlookup : List (String × Nat) → String → Option Nat
  | [], _ => none
  | p :: rest, k => if p.1 = k then some p.2 else rlookup rest k

def rerase : List (String × Nat) → String → List (String × Nat)
  | [], _ => []
  | p :: rest, k => if p.1 = k then rerase rest k else p :: rerase rest k

def hlookup : List (Nat × ConnectorS) → Nat → Option ConnectorS
  | [], _ => none
  | p :: rest, k => if p.1 = k then some p.2 else hlookup rest k

def hupdate : List (Nat × ConnectorS) → Nat → ConnectorS → List (Nat × ConnectorS)
  | [], _, _ => []
  | p :: rest, k, v => if p.1 = k then (k, v) :: rest else p :: hupdate rest k v

def retryParamKey : String := r"retryabortsinternally"

/-- The retry flag derived by newConnector: enabled by default, disabled only
when the parameter is present and parses (strconv.ParseBool) to false. -/
def retryFromParams (params : List (String × String)) : Bool :=
  match paramsLookup params retryParamKey with
  | some strval =>
    match goParseBool strval with
    | some false => false
    | _ => true
  | none => true

/-- newConnector of src/driver.go: return the registered connector for this
dsn when one exists; otherwise parse the dsn (propagating its error or
panic), derive the retry flag, and register a fresh connector.  Client
options and session pool sizing are forwarded opaquely inside cfg.params. -/
def newConnector (d : DriverS) (dsn : String) : COutcome (DriverS × Nat) :=
  match rlookup d.registry dsn with
  | some cid => .ok (d, cid)
  | none =>
    match extractConnectorConfig dsn with
    | .panicked m => .panicked m
    | .err e => .err e
    | .ok cfg =>
      let cid := d.nextConnectorId
      let cs : ConnectorS :=
        { dsn := dsn, cfg := cfg, retryAbortsInternally := retryFromParams cfg.params,
          clients := none, connCount := 0, clientsClosed := false }
      .ok ({ d with registry := (dsn, cid) :: d.registry,
                    heap := (cid, cs) :: d.heap,
                    nextConnectorId := cid + 1 }, cid)

def projectsSeg : String := r"projects/"
def instancesSeg : String := r"/instances/"
def databasesSeg : String := r"/databases/"

/-- The fully qualified database name formatted by openDriverConn. -/
def databaseName (cfg : connectorConfig) : String :=
  projectsSeg ++ cfg.project ++ instancesSeg ++ cfg.instanceName ++ databasesSeg ++ cfg.database

/-- openDriverConn of src/driver.go: run the sync.Once client initialization
(modelled as allocating the pair of client identifiers on first use),
increment the connector connection count, and hand out a connection whose
mutable state starts from the Go zero values with the retry flag copied from
the connector. -/
def openDriverConn (d : DriverS) (cid : Nat) : Option (DriverS × Conn) :=
  match hlookup d.heap cid with
  | none => none
  | some cs =>
    let init :
        (Nat × Nat) × ConnectorS × DriverS :=
      match cs.clients with
      | some pr => (pr, cs, d)
      | none =>
        let pr := (d.nextClientId, d.nextClientId + 1)
        (pr, { cs with clients := some pr }, { d with nextClientId := d.nextClientId + 2 })
    match init with
    | (pr, cs1, d1) =>
      let cs2 := { cs1 with connCount := cs1.connCount + 1 }
      some ({ d1 with heap := hupdate d1.heap cid cs2 },
        { connectorId := cid
          connectorDsn := cs.dsn
          clientId := pr.1
          adminClientId := pr.2
          database := databaseName cs.cfg
          closed := false
          tx := none
          commitTs := none
          retryAborts := cs.retryAbortsInternally
          batch := none
          autocommitDMLMode := Transactional
          readOnlyStaleness := { raw := 0 } })

def msgConnectorGone : String := r"connector not found"

/-- Driver.OpenConnector: newConnector. -/
def driverOpenConnector (d : DriverS) (dsn : String) : COutcome (DriverS × Nat) :=
  newConnector d dsn

/-- Driver.Open and connector.Connect: newConnector followed by
openDriverConn. -/
def driverOpen (d : DriverS) (dsn : String) : COutcome (DriverS × Conn) :=
  match newConnector d dsn with
  | .panicked m => .panicked m
  | .err e => .err e
  | .ok (d1, cid) =>
    match openDriverConn d1 cid with
    | some (d2, c) => .ok (d2, c)
    | none => .err (failedPrecondition msgConnectorGone)

/-- conn.Close of src/driver.go: decrement the connector count; when this was
the last connection, deregister the connector under its dsn and close both
client handles.  Note that the connection record itself is untouched — in
particular the closed flag is not set by Close. -/
def connClose (d : DriverS) (c : Conn) : DriverS :=
  match hlookup d.heap c.connectorId with
  | none => d
  | some cs =>
    let count := cs.connCount - 1
    if count > 0 then
      { d with heap := hupdate d.heap c.connectorId { cs with connCount := count } }
    else
      { d with heap := hupdate d.heap c.connectorId
                 { cs with connCount := count, clientsClosed := true },
               registry := rerase d.registry c.connectorDsn }

/-- The live-connection count of a connector, as observed through the heap. -/
def connCountOf (d : DriverS) (cid : Nat) : Option Int :=
  match hlookup d.heap cid with
  | some cs => some cs.connCount
  | none => none

/-- Whether the clients of a connector have been closed by a last Close. -/
def clientsClosedOf (d : DriverS) (cid : Nat) : Option Bool :=
  match hlookup d.heap cid with
  | some cs => some cs.clientsClosed
  | none => none

/- ===== The backing client, admin client and transaction as oracles ===== -/

/-- A request actually issued to the backing Spanner client or the database
admin client.  Connection operations report the list of requests they issued,
so that a theorem can state that a path performs, or does not perform, a
round trip. -/
inductive ClientCall where
  | updateDatabaseDdl (database : String) (statements : List String)
  | waitDdlOp (database : String) (statements : List String)
  | batchUpdateInTx (statements : List Statement)
  | batchUpdateNewTx (statements : List Statement)
  | readWriteTxnUpdate (statement : Statement)
  | partitionedUpdate (statement : Statement)
  | singleQuery (statement : Statement) (bound : TimestampBound)
  | txUpdate (statement : Statement)
  | txQueryCall (statement : Statement)
deriving DecidableEq, Repr

/-- Outcomes of the external collaborators, fixed per scenario: the backing
Spanner client and admin client (external black boxes), and the transaction
methods implemented in the repository file transaction.go, which is not among
the sources here and whose outcomes are therefore oracles as well.  Row
streams are materialized as row lists; an iterator error and an error at
iterator creation are indistinguishable to the driver code under test. -/
structure Backend where
  updateDdl : List String → Except Err Unit
  waitDdl : List String → Except Err Unit
  rwBatchUpdateInTx : List Statement → Except Err (List Int)
  rwBatchUpdateNewTx : List Statement → Except Err (List Int)
  execSingleDMLTransactional : Statement → Except Err (Int × Timestamp)
  execSingleDMLPartitioned : Statement → Except Err Int
  execSingleQuery : Statement → TimestampBound → Except Err (List (List Value))
  txQuery : Statement → Except Err (List (List Value))
  txExec : Statement → Except Err Int
  txRollback : Except Err Unit

/-- The result of a recognized client-side statement, when the SQL text is a
meta-command handled entirely by the command interpreter (a collaborator that
is not among the sources here). -/
structure ClientSideResult where
  execResult : Except Err DriverResult
  queryRows : Except Err (List (List Value))

/-- Modelled from the spec: the statement-classification collaborators
parseClientSideStatement, isDDL and prepareSpannerStmt live in repository
files that are not among the sources here; their per-call outcomes are
inputs.  clientSide is the parseClientSideStatement result (none when the
text is not a recognized meta-command), ddl the isDDL classification, and
prepared the prepareSpannerStmt result for the text with its arguments. -/
structure StmtEnv where
  clientSide : Except Err (Option ClientSideResult)
  ddl : Except Err Bool
  prepared : Except Err Statement

/-- The outcome of an exec-like connection operation: the connection state
afterwards, the Go (driver.Result, error) pair as an Except, and the backend
requests issued. -/
structure ExecOut where
  conn : Conn
  res : Except Err DriverResult
  calls : List ClientCall
deriving Repr

/- ===== Connection operations from src/driver.go ===== -/

/-- conn.CommitTimestamp: FailedPrecondition while no read/write transaction
has committed successfully, the stored timestamp otherwise.  The operation is
pure: it takes no lock and writes no field. -/
def Conn.commitTimestamp (c : Conn) : Except Err Timestamp :=
  match c.commitTs with
  | none => .error (failedPrecondition msgNoCommitTs)
  | some ts => .ok ts

/-- conn.setRetryAbortsInternally. -/
def Conn.setRetryAbortsInternally (c : Conn) (retry : Bool) :
    Conn × Except Err DriverResult :=
  if c.inTransaction then (c, .error (failedPrecondition msgRetryInTx))
  else ({ c with retryAborts := retry }, .ok .resultNoRows)

/-- conn.setAutocommitDMLMode. -/
def Conn.setAutocommitDMLMode (c : Conn) (mode : Int) : Conn × Except Err DriverResult :=
  ({ c with autocommitDMLMode := mode }, .ok .resultNoRows)

/-- conn.setReadOnlyStaleness. -/
def Conn.setReadOnlyStaleness (c : Conn) (staleness : TimestampBound) :
    Conn × Except Err DriverResult :=
  ({ c with readOnlyStaleness := staleness }, .ok .resultNoRows)

/-- conn.startBatchDDL: an already active batch, then an active transaction,
are each rejected with FailedPrecondition before an empty DDL batch is
opened. -/
def Conn.startBatchDDL (c : Conn) : Conn × Except Err DriverResult :=
  if c.batch.isSome then (c, .error (failedPrecondition msgActiveBatch))
  else if c.inTransaction then (c, .error (failedPrecondition msgDDLBatchInTx))
  else ({ c with batch := some { tp := BatchType.ddl, statements := [] } }, .ok .resultNoRows)

/-- Modelled from the spec: contextTransaction.StartBatchDML of the missing
transaction.go.  On a read/write transaction it opens the nested DML batch
unless one is already open; a read-only transaction cannot batch DML. -/
def Conn.txStartBatchDML (c : Conn) : Conn × Except Err DriverResult :=
  match c.tx with
  | some (.readWrite none) =>
    ({ c with tx := some (.readWrite (some { tp := BatchType.dml, statements := [] })) },
     .ok .resultNoRows)
  | some (.readWrite (some _)) => (c, .error (failedPrecondition msgActiveBatch))
  | some .readOnly => (c, .error (failedPrecondition msgROBatchDML))
  | none => (c, .error (failedPrecondition msgNoActiveBatch))

/-- conn.startBatchDML: with an active transaction the call is delegated to
it; otherwise an already active connection-level batch is rejected, and an
empty DML batch is opened.  (The read-only-transaction arm after the
delegation is unreachable and kept for fidelity.) -/
def Conn.startBatchDML (c : Conn) : Conn × Except Err DriverResult :=
  if c.inTransaction then c.txStartBatchDML
  else if c.batch.isSome then (c, .error (failedPrecondition msgActiveBatch))
  else if c.inReadOnlyTransaction then (c, .error (failedPrecondition msgROBatchDML))
  else ({ c with batch := some { tp := BatchType.dml, statements := [] } }, .ok .resultNoRows)

def sumAffected (l : List Int) : Int := l.foldl (fun acc x => acc + x) 0

/-- conn.execDDL: a connection-level DML batch rejects DDL; a DDL batch
absorbs the statements without submitting them; otherwise a non-empty
statement list is submitted to the database-admin interface as one
UpdateDatabaseDdl request whose long-running operation is awaited before
returning. -/
def Conn.execDDL (c : Conn) (b : Backend) (statements : List Statement) : ExecOut :=
  match c.batch with
  | some bt =>
    match bt.tp with
    | BatchType.dml => { conn := c, res := .error (failedPrecondition msgActiveDMLBatch), calls := [] }
    | BatchType.ddl =>
      { conn := { c with batch := some { bt with statements := bt.statements ++ statements } },
        res := .ok .resultNoRows, calls := [] }
  | none =>
    if statements.isEmpty then { conn := c, res := .ok .resultNoRows, calls := [] }
    else
      let ddlStrings := statements.map Statement.sql
      match b.updateDdl ddlStrings with
      | .error e =>
        { conn := c, res := .error e, calls := [.updateDatabaseDdl c.database ddlStrings] }
      | .ok _ =>
        match b.waitDdl ddlStrings with
        | .error e =>
          { conn := c, res := .error e,
            calls := [.updateDatabaseDdl c.database ddlStrings, .waitDdlOp c.database ddlStrings] }
        | .ok _ =>
          { conn := c, res := .ok .resultNoRows,
            calls := [.updateDatabaseDdl c.database ddlStrings, .waitDdlOp c.database ddlStrings] }

/-- conn.execBatchDML: an empty statement list returns an empty result
without touching the client; inside a read/write transaction the batch runs
through that transaction, inside any other transaction it is rejected, and
outside a transaction it runs inside one new read/write transaction. -/
def Conn.execBatchDML (c : Conn) (b : Backend) (statements : List Statement) : ExecOut :=
  if statements.isEmpty then { conn := c, res := .ok (.result 0), calls := [] }
  else
    match c.tx with
    | some (.readWrite _) =>
      match b.rwBatchUpdateInTx statements with
      | .error e => { conn := c, res := .error e, calls := [.batchUpdateInTx statements] }
      | .ok affected =>
        { conn := c, res := .ok (.result (sumAffected affected)),
          calls := [.batchUpdateInTx statements] }
    | some .readOnly => { conn := c, res := .error (failedPrecondition msgNotRWTx), calls := [] }
    | none =>
      match b.rwBatchUpdateNewTx statements with
      | .error e => { conn := c, res := .error e, calls := [.batchUpdateNewTx statements] }
      | .ok affected =>
        { conn := c, res := .ok (.result (sumAffected affected)),
          calls := [.batchUpdateNewTx statements] }

/-- conn.runDDLBatch: take the statements, clear the batch, submit through
execDDL.  (Reaching this without a batch would dereference nil in Go; runBatch
guards the call.) -/
def Conn.runDDLBatch (c : Conn) (b : Backend) : ExecOut :=
  match c.batch with
  | some bt => Conn.execDDL { c with batch := none } b bt.statements
  | none => { conn := c, res := .error (failedPrecondition msgNoActiveBatch), calls := [] }

/-- conn.runDMLBatch: take the statements, clear the batch, submit through
execBatchDML.  (Reaching this without a batch would dereference nil in Go;
runBatch guards the call.) -/
def Conn.runDMLBatch (c : Conn) (b : Backend) : ExecOut :=
  match c.batch with
  | some bt => Conn.execBatchDML { c with batch := none } b bt.statements
  | none => { conn := c, res := .error (failedPrecondition msgNoActiveBatch), calls := [] }

/-- Modelled from the spec: contextTransaction.RunBatch of the missing
transaction.go.  Running the nested batch of a read/write transaction submits
the buffered statements as one BatchUpdate inside the current transactional
context and clears the nested batch; without a nested batch the call fails
with FailedPrecondition. -/
def Conn.txRunBatch (c : Conn) (b : Backend) : ExecOut :=
  match c.tx with
  | some (.readWrite (some bt)) =>
    let c1 := { c with tx := some (.readWrite none) }
    if bt.statements.isEmpty then { conn := c1, res := .ok (.result 0), calls := [] }
    else
      match b.rwBatchUpdateInTx bt.statements with
      | .error e => { conn := c1, res := .error e, calls := [.batchUpdateInTx bt.statements] }
      | .ok affected =>
        { conn := c1, res := .ok (.result (sumAffected affected)),
          calls := [.batchUpdateInTx bt.statements] }
  | _ => { conn := c, res := .error (failedPrecondition msgNoActiveBatch), calls := [] }

/-- Modelled from the spec: contextTransaction.AbortBatch of the missing
transaction.go discards the nested batch. -/
def Conn.txAbortBatch (c : Conn) : Conn × Except Err DriverResult :=
  match c.tx with
  | some (.readWrite _) => ({ c with tx := some (.readWrite none) }, .ok .resultNoRows)
  | _ => (c, .ok .resultNoRows)

/-- conn.runBatch: with an active transaction the call is delegated to it;
otherwise a missing batch is FailedPrecondition, and the open batch runs
according to its kind. -/
def Conn.runBatch (c : Conn) (b : Backend) : ExecOut :=
  if c.inTransaction then c.txRunBatch b
  else
    match c.batch with
    | none => { conn := c, res := .error (failedPrecondition msgNoActiveBatch), calls := [] }
    | some bt =>
      match bt.tp with
      | BatchType.ddl => c.runDDLBatch b
      | BatchType.dml => c.runDMLBatch b

/-- conn.abortBatch: with an active transaction the call is delegated to it;
otherwise the connection-level batch is discarded (a no-op without one). -/
def Conn.abortBatch (c : Conn) : Conn × Except Err DriverResult :=
  if c.inTransaction then c.txAbortBatch
  else ({ c with batch := none }, .ok .resultNoRows)

/-- conn.QueryContext: a recognized client-side statement is delegated to the
command interpreter; otherwise the stored commit timestamp is cleared and the
prepared statement runs either as a single-use snapshot query under the
current staleness bound or inside the active transaction.  The resulting row
stream is materialized. -/
def Conn.queryContext (c : Conn) (b : Backend) (env : StmtEnv) :
    Conn × Except Err (List (List Value)) × List ClientCall :=
  match env.clientSide with
  | .error e => (c, .error e, [])
  | .ok (some cs) => (c, cs.queryRows, [])
  | .ok none =>
    let c1 := { c with commitTs := none }
    match env.prepared with
    | .error e => (c1, .error e, [])
    | .ok stmt =>
      match c1.tx with
      | none =>
        (c1, b.execSingleQuery stmt c1.readOnlyStaleness,
         [.singleQuery stmt c1.readOnlyStaleness])
      | some _ => (c1, b.txQuery stmt, [.txQueryCall stmt])

def pingSql : String := r"SELECT 1"

/-- conn.Ping: bad connection when closed; otherwise the trivial query must
round-trip and its first row must hold the int64 literal 1, any failure being
reported as driver.ErrBadConn. -/
def Conn.ping (c : Conn) (b : Backend) (env : StmtEnv) : Conn × Option Err :=
  if c.closed then (c, some Err.badConn)
  else
    match c.queryContext b env with
    | (c1, .error _, _) => (c1, some Err.badConn)
    | (c1, .ok rows, _) =>
      match rows.head? with
      | none => (c1, some Err.badConn)
      | some values =>
        if values.head? = some (Value.vint 1) then (c1, none)
        else (c1, some Err.badConn)

/-- conn.ResetSession: bad connection when closed; an open transaction is
rolled back first (a rollback failure also reports bad connection; the
rollback clears the connection transaction reference through the close
callback of transaction.go, per the spec contract that commit and rollback
always clear it); then the commit timestamp, batch, retry flag, autocommit
DML mode and staleness bound return to their defaults. -/
def Conn.resetSession (c : Conn) (b : Backend) : Conn × Option Err :=
  if c.closed then (c, some Err.badConn)
  else
    match c.tx with
    | some _ =>
      match b.txRollback with
      | .error _ => ({ c with tx := none }, some Err.badConn)
      | .ok _ =>
        ({ c with tx := none, commitTs := none, batch := none, retryAborts := true,
                  autocommitDMLMode := Transactional, readOnlyStaleness := { raw := 0 } },
         none)
    | none =>
      ({ c with commitTs := none, batch := none, retryAborts := true,
                autocommitDMLMode := Transactional, readOnlyStaleness := { raw := 0 } },
       none)

/-- conn.ExecContext: a recognized client-side statement is delegated; the
commit timestamp is cleared; DDL is rejected inside a transaction and routed
to execDDL otherwise; DML inside a transaction is delegated to it; DML with
an open connection-level DML batch is appended to the batch; and autocommit
DML branches on the mode — Transactional runs the statement inside one new
read/write transaction and records its commit timestamp on success,
PartitionedNonAtomic runs a partitioned update recording no timestamp, and
every other mode value is FailedPrecondition. -/
def Conn.execContext (c : Conn) (b : Backend) (env : StmtEnv) (query : String) : ExecOut :=
  match env.clientSide with
  | .error e => { conn := c, res := .error e, calls := [] }
  | .ok (some cs) => { conn := c, res := cs.execResult, calls := [] }
  | .ok none =>
    let c1 := { c with commitTs := none }
    match env.ddl with
    | .error e => { conn := c1, res := .error e, calls := [] }
    | .ok true =>
      if c1.inTransaction then
        { conn := c1, res := .error (failedPrecondition msgDDLInTx), calls := [] }
      else c1.execDDL b [newStatement query]
    | .ok false =>
      match env.prepared with
      | .error e => { conn := c1, res := .error e, calls := [] }
      | .ok ss =>
        match c1.tx with
        | none =>
          if c1.inDMLBatch then
            match c1.batch with
            | some bt =>
              { conn := { c1 with batch := some { bt with statements := bt.statements ++ [ss] } },
                res := .ok (.result 0), calls := [] }
            | none =>
              -- Unreachable: with no transaction, InDMLBatch implies a connection-level batch.
              { conn := c1, res := .ok (.result 0), calls := [] }
          else
            if c1.autocommitDMLMode = Transactional then
              match b.execSingleDMLTransactional ss with
              | .error e =>
                { conn := c1, res := .error e, calls := [.readWriteTxnUpdate ss] }
              | .ok (rowsAffected, commitTs) =>
                { conn := { c1 with commitTs := some commitTs },
                  res := .ok (.result rowsAffected), calls := [.readWriteTxnUpdate ss] }
            else if c1.autocommitDMLMode = PartitionedNonAtomic then
              match b.execSingleDMLPartitioned ss with
              | .error e => { conn := c1, res := .error e, calls := [.partitionedUpdate ss] }
              | .ok rowsAffected =>
                { conn := c1, res := .ok (.result rowsAffected), calls := [.partitionedUpdate ss] }
            else
              { conn := c1,
                res := .error (failedPrecondition
                  (msgInvalidDMLState ++ modeString c1.autocommitDMLMode)),
                calls := [] }
        | some _ =>
          match b.txExec ss with
          | .error e => { conn := c1, res := .error e, calls := [.txUpdate ss] }
          | .ok rowsAffected =>
            { conn := c1, res := .ok (.result rowsAffected), calls := [.txUpdate ss] }

/- ===== The abort-retry protocol of the read/write transaction =====

Modelled from the spec: the readWriteTransaction retry machinery lives in
the repository file transaction.go, which is not among the sources here.
Per the spec, an Abort while the per-connection retry flag is enabled makes
the manager replay, in original order, every statement previously issued
successfully in this transaction attempt against a fresh transactional
context; a replayed statement whose results are not identical to the
original results abandons the retry and surfaces the distinguished
aborted-due-to-concurrent-modification error, which is never retried
further; matching replays continue to a new commit attempt, and repeated
Aborts restart the procedure up to a capped number of attempts. -/

/-- The observed result of a statement inside a read/write transaction
attempt, compared row for row on replay. -/
structure StmtResult where
  rows : List (List Value)
  rowsAffected : Int
deriving DecidableEq, Repr

/-- The append-only replay log of a read/write transaction attempt: each
successfully issued statement with its observed result. -/
def TxLog : Type := List (Statement × StmtResult)

/-- Outcome of one commit attempt, as reported by the backing database. -/
inductive CommitOutcome where
  | committed (ts : Timestamp)
  | abortedAgain
  | failed (e : SErr)

/-- Terminal outcome of a read/write transaction under the retry protocol. -/
inductive TxRetryResult where
  | committed (ts : Timestamp)
  | concurrentModification
  | abortedSurfaced
  | failed (e : SErr)
deriving DecidableEq, Repr

/-- Whether every logged statement, replayed through the context of the given
attempt, reproduces its originally observed result exactly. -/
def replayMatches (log : TxLog) (run : Statement → StmtResult) : Bool :=
  log.all fun p => run p.1 = p.2

/-- Modelled from the spec: the bounded retry loop.  attempt numbers the
retry attempts; replayRun gives the replay results observed in a given
attempt and commitOut the outcome of that attempt's final commit.  A replay
mismatch abandons the loop at once with the concurrent-modification error;
a matching replay proceeds to commit, and a renewed Abort starts the next
attempt until the cap is exhausted, after which the Abort is surfaced. -/
def retryLoop (replayRun : Nat → Statement → StmtResult) (commitOut : Nat → CommitOutcome)
    (log : TxLog) : Nat → Nat → TxRetryResult
  | 0, _ => .abortedSurfaced
  | fuel + 1, attempt =>
    if replayMatches log (replayRun attempt) then
      match commitOut attempt with
      | .committed ts => .committed ts
      | .abortedAgain => retryLoop replayRun commitOut log fuel (attempt + 1)
      | .failed e => .failed e
    else .concurrentModification

/-- Modelled from the spec: the reaction to an Abort reported during a
read/write transaction.  With the retry flag disabled the Abort is surfaced
immediately; with it enabled the bounded replay loop runs. -/
def handleAbort (retryFlag : Bool) (maxAttempts : Nat)
    (replayRun : Nat → Statement → StmtResult) (commitOut : Nat → CommitOutcome)
    (log : TxLog) : TxRetryResult :=
  if retryFlag then retryLoop replayRun commitOut log maxAttempts 0
  else .abortedSurfaced

/- ===== Concrete fixtures for witnesses and counterexamples ===== -/

/-- A descriptor in the documented full form. -/
def dsnExample : String := r"projects/p/instances/i/databases/d"

/-- The configuration the dsnExample descriptor parses to. -/
def cfgExample : connectorConfig :=
  { host := r"", project := r"p", instanceName := r"i", database := r"d", params := [] }

/-- A descriptor the dsn regular expression matches nowhere. -/
def dsnFoo : String := r"foo"

/-- A descriptor whose parameter tail lacks an equals sign. -/
def dsnBadParam : String := r"projects/p;noequals"

def badParamEntry : String := r"noequals"

/-- A backend whose every request succeeds with fixed small results. -/
def noopBackend : Backend :=
  { updateDdl := fun _ => .ok ()
    waitDdl := fun _ => .ok ()
    rwBatchUpdateInTx := fun _ => .ok [1]
    rwBatchUpdateNewTx := fun _ => .ok [1]
    execSingleDMLTransactional := fun _ => .ok (1, { v := 7 })
    execSingleDMLPartitioned := fun _ => .ok 2
    execSingleQuery := fun _ _ => .ok [[Value.vint 1]]
    txQuery := fun _ => .ok [[Value.vint 1]]
    txExec := fun _ => .ok 1
    txRollback := .ok () }

/-- A backend whose rollback fails. -/
def rollbackFailBackend : Backend :=
  { noopBackend with txRollback := .error (failedPrecondition msgNoCommitTs) }

def updateSql : String := r"UPDATE t SET x = 1"

def ddlSql : String := r"CREATE TABLE t (id INT64) PRIMARY KEY (id)"

/-- An environment for a plain DML statement that is not a meta-command. -/
def dmlEnv : StmtEnv :=
  { clientSide := .ok none, ddl := .ok false, prepared := .ok (newStatement updateSql) }

/-- An environment for a DDL statement that is not a meta-command. -/
def ddlEnv : StmtEnv :=
  { clientSide := .ok none, ddl := .ok true, prepared := .ok (newStatement ddlSql) }

/-- A freshly opened connection in its default state. -/
def freshConn : Conn :=
  { connectorId := 0, connectorDsn := dsnExample, clientId := 0, adminClientId := 1,
    database := databaseName cfgExample, closed := false, tx := none, commitTs := none,
    retryAborts := true, batch := none, autocommitDMLMode := Transactional,
    readOnlyStaleness := { raw := 0 } }

/-- A connection whose closed flag is set and which still stores a commit
timestamp from before. -/
def closedConn : Conn :=
  { freshConn with closed := true, commitTs := some { v := 5 } }

/-- A connection inside a read-only transaction. -/
def roTxConn : Conn := { freshConn with tx := some Tx.readOnly }

/-- A connection inside a read/write transaction without a nested batch. -/
def rwTxConn : Conn := { freshConn with tx := some (Tx.readWrite none) }

/-- A connection with an open, still-empty DML batch. -/
def dmlBatchConn : Conn :=
  { freshConn with batch := some { tp := BatchType.dml, statements := [] } }

/-- A connection with an open DDL batch holding one statement. -/
def ddlBatchConn : Conn :=
  { freshConn with batch := some { tp := BatchType.ddl, statements := [newStatement ddlSql] } }

/-- A connection with a stored commit timestamp. -/
def tsConn : Conn := { freshConn with commitTs := some { v := 9 } }

/-- A connection whose autocommit DML mode holds an out-of-range value. -/
def badModeConn : Conn := { freshConn with autocommitDMLMode := 5 }

/-- A replay log of one statement with its originally observed result. -/
def logW : TxLog :=
  [(newStatement updateSql, { rows := [[Value.vint 1]], rowsAffected := 1 })]

/-- A replay oracle that observes a different row on every attempt. -/
def replayRunW : Nat → Statement → StmtResult :=
  fun _ _ => { rows := [[Value.vint 2]], rowsAffected := 1 }

/-- A commit oracle that keeps reporting Abort. -/
def commitOutW : Nat → CommitOutcome := fun _ => CommitOutcome.abortedAgain

/-- All lifecycle observations of claim C4 for one descriptor, starting from
the empty registry: open and open share one connector and one client pair
with counts 1 then 2; closing one connection brings the count back to 1 and
neither deregisters the connector nor closes the clients; closing the last
brings the count to 0, deregisters and closes the clients; and a further
newConnector for the same descriptor allocates a fresh connector identity. -/
def connectorLifecycle (dsn : String) : Bool :=
  match driverOpen initialDriver dsn with
  | .ok (d1, c1) =>
    match driverOpen d1 dsn with
    | .ok (d2, c2) =>
      let d3 := connClose d2 c1
      let d4 := connClose d3 c2
      c1.connectorId == c2.connectorId &&
      c1.clientId == c2.clientId &&
      c1.adminClientId == c2.adminClientId &&
      connCountOf initialDriver c1.connectorId == none &&
      connCountOf d1 c1.connectorId == some 1 &&
      connCountOf d2 c1.connectorId == some 2 &&
      connCountOf d3 c1.connectorId == some 1 &&
      rlookup d3.registry dsn == some c1.connectorId &&
      clientsClosedOf d3 c1.connectorId == some false &&
      connCountOf d4 c1.connectorId == some 0 &&
      rlookup d4.registry dsn == none &&
      clientsClosedOf d4 c1.connectorId == some true &&
      (match newConnector d4 dsn with
       | .ok (_, cid5) => cid5 != c1.connectorId
       | _ => false)
    | _ => false
  | _ => false

/- ===== Claim theorems ===== -/

/-- C1: during the internal retry of an aborted read-write transaction, a
replayed statement whose results differ from the original results abandons
the retry at once with the distinguished aborted-due-to-concurrent-
modification outcome: for every remaining attempt budget and every commit
oracle the loop result is concurrentModification, no further replay attempt
is consulted (the conclusion holds for all oracles that agree on the failing
attempt), and entering the protocol with the retry flag enabled yields the
same distinguished outcome — the flag cannot cause further retries. -/
theorem retry_mismatch_concurrent_modification
    (log : TxLog) (replayRun : Nat → Statement → StmtResult)
    (commitOut : Nat → CommitOutcome) (fuel attempt : Nat)
    (hmis : replayMatches log (replayRun attempt) = false) :
    retryLoop replayRun commitOut log (fuel + 1) attempt = .concurrentModification ∧
    (attempt = 0 → ∀ (commitOut2 : Nat → CommitOutcome) (maxAttempts : Nat),
      0 < maxAttempts →
      handleAbort true maxAttempts replayRun commitOut2 log = .concurrentModification) := by
  constructor
  · simp [retryLoop, hmis]
  · intro h0 commitOut2 maxAttempts hpos
    subst h0
    obtain ⟨m, rfl⟩ : ∃ m, maxAttempts = m + 1 :=
      ⟨maxAttempts - 1, (Nat.succ_pred_eq_of_pos hpos).symm⟩
    simp [handleAbort, retryLoop, hmis]

/-- Witness for C1 at a concrete one-statement log whose replay observes a
different row. -/
theorem retry_mismatch_concurrent_modification_witness :
    retryLoop replayRunW commitOutW logW 3 0 = .concurrentModification ∧
    handleAbort true 5 replayRunW commitOutW logW = .concurrentModification := by
  have h := retry_mismatch_concurrent_modification logW replayRunW commitOutW 2 0 (by decide)
  exact ⟨h.1, h.2 rfl commitOutW 5 (by decide)⟩

/-- C2 (code bug): a descriptor the dsn regular expression does not match
anywhere — for example the string foo, which contains no projects/ segment —
makes extractConnectorConfig, and with it Driver.Open and
Driver.OpenConnector, panic with an index-out-of-range runtime error instead
of returning an InvalidArgument error: FindStringSubmatch returns nil and the
loop over SubexpNames indexes it unconditionally.  Only a descriptor that
matches the regular expression but carries a malformed parameter entry is
rejected with the InvalidArgument error the spec describes. -/
theorem open_unparseable_dsn_panics :
    extractConnectorConfig dsnFoo = .panicked msgIndexOutOfRange ∧
    driverOpenConnector initialDriver dsnFoo = .panicked msgIndexOutOfRange ∧
    driverOpen initialDriver dsnFoo = .panicked msgIndexOutOfRange ∧
    extractConnectorConfig dsnBadParam = .err (invalidArg (msgInvalidConnProp ++ badParamEntry)) := by
  refine ⟨?_, ?_, ?_, ?_⟩ <;> decide

/-- C3 counterexample: not every operation on a closed connection reports the
bad-connection sentinel — on a connection whose closed flag is set,
CommitTimestamp still returns the stored timestamp and StartBatchDDL still
opens a batch, because only Ping, ResetSession and IsValid consult the
flag. -/
theorem closed_conn_operation_succeeds :
    closedConn.closed = true ∧
    closedConn.commitTimestamp = .ok { v := 5 } ∧
    closedConn.commitTimestamp ≠ .error Err.badConn ∧
    (closedConn.startBatchDDL).2 = .ok DriverResult.resultNoRows ∧
    (closedConn.startBatchDDL).2 ≠ .error Err.badConn := by
  refine ⟨rfl, rfl, fun h => ?_, rfl, fun h => ?_⟩ <;> exact Except.noConfusion h

/-- C3 (amended): on a connection whose closed flag is set, ping and
resetSession report the bad-connection sentinel driver.ErrBadConn and
IsValid reports false; the remaining operations do not consult the closed
flag. -/
theorem closed_conn_ping_reset_bad_conn (c : Conn) (b : Backend) (env : StmtEnv)
    (hclosed : c.closed = true) :
    (c.ping b env).2 = some Err.badConn ∧
    (c.resetSession b).2 = some Err.badConn ∧
    c.isValid = false := by
  refine ⟨?_, ?_, ?_⟩ <;> simp [Conn.ping, Conn.resetSession, Conn.isValid, hclosed]

/-- Witness for the amended C3 at the concrete closed connection. -/
theorem closed_conn_ping_reset_bad_conn_witness :
    (closedConn.ping noopBackend dmlEnv).2 = some Err.badConn ∧
    (closedConn.resetSession noopBackend).2 = some Err.badConn ∧
    closedConn.isValid = false :=
  closed_conn_ping_reset_bad_conn closedConn noopBackend dmlEnv rfl

/-- C4: for every descriptor that parses, all connections opened with it
share one connector and one backing client pair; the live count steps
0, 1, 2, 1, 0 across open, open, close, close; only the close that reaches
zero closes the clients and removes the connector from the registry; and a
subsequent open creates a fresh connector. -/
theorem connector_shared_until_last_close (dsn : String) (cfg : connectorConfig)
    (hparse : extractConnectorConfig dsn = .ok cfg) :
    connectorLifecycle dsn = true := by
  simp [connectorLifecycle, driverOpen, newConnector, hparse, openDriverConn,
    initialDriver, rlookup, rerase, hlookup, hupdate, connClose, connCountOf,
    clientsClosedOf]

/-- Witness for C4 at the concrete example descriptor. -/
theorem connector_shared_until_last_close_witness :
    connectorLifecycle dsnExample = true :=
  connector_shared_until_last_close dsnExample cfgExample (by decide)

/-- C5: an exec call classified as schema DDL is rejected with
FailedPrecondition while a transaction is active; otherwise an open DML
batch rejects it with FailedPrecondition, an open DDL batch absorbs it
without submitting anything, and with no batch it is submitted to the
database-admin interface and its operation awaited before returning. -/
theorem exec_ddl_routing (b : Backend) (env : StmtEnv) (q : String)
    (hcs : env.clientSide = .ok none) (hddl : env.ddl = .ok true) :
    (∀ c : Conn, c.tx.isSome = true →
      (c.execContext b env q).res = .error (failedPrecondition msgDDLInTx) ∧
      (c.execContext b env q).calls = []) ∧
    (∀ (c : Conn) (bt : Batch), c.tx = none → c.batch = some bt → bt.tp = BatchType.dml →
      (c.execContext b env q).res = .error (failedPrecondition msgActiveDMLBatch) ∧
      (c.execContext b env q).calls = []) ∧
    (∀ (c : Conn) (bt : Batch), c.tx = none → c.batch = some bt → bt.tp = BatchType.ddl →
      (c.execContext b env q).res = .ok .resultNoRows ∧
      (c.execContext b env q).calls = [] ∧
      (c.execContext b env q).conn.batch =
        some { bt with statements := bt.statements ++ [newStatement q] }) ∧
    (∀ c : Conn, c.tx = none → c.batch = none →
      (c.execContext b env q).calls.head? = some (.updateDatabaseDdl c.database [q]) ∧
      (b.updateDdl [q] = .ok () → b.waitDdl [q] = .ok () →
        (c.execContext b env q).res = .ok .resultNoRows ∧
        (c.execContext b env q).calls =
          [.updateDatabaseDdl c.database [q], .waitDdlOp c.database [q]])) := by
  refine ⟨?_, ?_, ?_, ?_⟩
  · intro c htx
    simp [Conn.execContext, hcs, hddl, Conn.inTransaction, htx]
  · intro c bt htx hb htp
    simp [Conn.execContext, hcs, hddl, Conn.inTransaction, htx, Conn.execDDL, hb, htp]
  · intro c bt htx hb htp
    simp [Conn.execContext, hcs, hddl, Conn.inTransaction, htx, Conn.execDDL, hb, htp]
  · intro c htx hb
    refine ⟨?_, ?_⟩
    · rcases hu : b.updateDdl [q] with e | u
      · simp [Conn.execContext, hcs, hddl, Conn.inTransaction, htx, Conn.execDDL, hb,
          newStatement, hu]
      · rcases hw : b.waitDdl [q] with e | w <;>
          simp [Conn.execContext, hcs, hddl, Conn.inTransaction, htx, Conn.execDDL, hb,
            newStatement, hu, hw]
    · intro hu2 hw2
      simp [Conn.execContext, hcs, hddl, Conn.inTransaction, htx, Conn.execDDL, hb,
        newStatement, hu2, hw2]

/-- Witness for C5: inside a read/write transaction the DDL exec is rejected,
and on a batchless connection it is submitted and awaited. -/
theorem exec_ddl_routing_witness :
    ((rwTxConn.execContext noopBackend ddlEnv ddlSql).res =
        .error (failedPrecondition msgDDLInTx) ∧
      (rwTxConn.execContext noopBackend ddlEnv ddlSql).calls = []) ∧
    ((freshConn.execContext noopBackend ddlEnv ddlSql).res = .ok .resultNoRows ∧
      (freshConn.execContext noopBackend ddlEnv ddlSql).calls =
        [.updateDatabaseDdl freshConn.database [ddlSql], .waitDdlOp freshConn.database [ddlSql]]) := by
  have h := exec_ddl_routing noopBackend ddlEnv ddlSql rfl rfl
  exact ⟨h.1 rwTxConn rfl, (h.2.2.2 freshConn rfl rfl).2 rfl rfl⟩

/-- C6: a DML exec with no active transaction and no open DML batch branches
on the autocommit DML mode — Transactional runs the statement inside one new
internally managed read/write transaction and records its commit timestamp
on success; PartitionedNonAtomic runs one partitioned update and records no
commit timestamp; any other mode value fails with FailedPrecondition without
touching the client. -/
theorem exec_dml_autocommit_modes (b : Backend) (env : StmtEnv) (q : String) (ss : Statement)
    (hcs : env.clientSide = .ok none) (hddl : env.ddl = .ok false)
    (hprep : env.prepared = .ok ss) :
    (∀ c : Conn, c.tx = none → c.inDMLBatch = false →
      c.autocommitDMLMode = Transactional →
      (c.execContext b env q).calls = [.readWriteTxnUpdate ss] ∧
      (∀ n ts, b.execSingleDMLTransactional ss = .ok (n, ts) →
        (c.execContext b env q).res = .ok (.result n) ∧
        (c.execContext b env q).conn.commitTs = some ts)) ∧
    (∀ c : Conn, c.tx = none → c.inDMLBatch = false →
      c.autocommitDMLMode = PartitionedNonAtomic →
      (c.execContext b env q).calls = [.partitionedUpdate ss] ∧
      (c.execContext b env q).conn.commitTs = none ∧
      (∀ n, b.execSingleDMLPartitioned ss = .ok n →
        (c.execContext b env q).res = .ok (.result n))) ∧
    (∀ c : Conn, c.tx = none → c.inDMLBatch = false →
      c.autocommitDMLMode ≠ Transactional → c.autocommitDMLMode ≠ PartitionedNonAtomic →
      resultCode (c.execContext b env q).res = some Code.FailedPrecondition ∧
      (c.execContext b env q).calls = []) := by
  refine ⟨?_, ?_, ?_⟩
  · intro c htx hdml hmode
    rcases hbatch : c.batch with _ | bt
    · refine ⟨?_, ?_⟩
      · rcases ht : b.execSingleDMLTransactional ss with e | pr <;>
          simp [Conn.execContext, hcs, hddl, hprep, htx, hbatch, Conn.inDMLBatch, hmode, ht]
      · intro n ts hok
        constructor <;>
          simp [Conn.execContext, hcs, hddl, hprep, htx, hbatch, Conn.inDMLBatch, hmode, hok]
    · simp only [Conn.inDMLBatch, htx, hbatch] at hdml
      simp at hdml
      refine ⟨?_, ?_⟩
      · rcases ht : b.execSingleDMLTransactional ss with e | pr <;>
          simp [Conn.execContext, hcs, hddl, hprep, htx, hbatch, Conn.inDMLBatch, hmode, hdml, ht]
      · intro n ts hok
        constructor <;>
          simp [Conn.execContext, hcs, hddl, hprep, htx, hbatch, Conn.inDMLBatch, hmode, hdml, hok]
  · intro c htx hdml hmode
    have hne : c.autocommitDMLMode ≠ Transactional := by rw [hmode]; decide
    rcases hbatch : c.batch with _ | bt
    · refine ⟨?_, ?_, ?_⟩
      · rcases hp : b.execSingleDMLPartitioned ss with e | n0 <;>
          simp [Conn.execContext, hcs, hddl, hprep, htx, hbatch, Conn.inDMLBatch, hmode, hne,
            Transactional, PartitionedNonAtomic, hp]
      · rcases hp : b.execSingleDMLPartitioned ss with e | n0 <;>
          simp [Conn.execContext, hcs, hddl, hprep, htx, hbatch, Conn.inDMLBatch, hmode, hne,
            Transactional, PartitionedNonAtomic, hp]
      · intro n hok
        simp [Conn.execContext, hcs, hddl, hprep, htx, hbatch, Conn.inDMLBatch, hmode, hne,
          Transactional, PartitionedNonAtomic, hok]
    · simp only [Conn.inDMLBatch, htx, hbatch] at hdml
      simp at hdml
      refine ⟨?_, ?_, ?_⟩
      · rcases hp : b.execSingleDMLPartitioned ss with e | n0 <;>
          simp [Conn.execContext, hcs, hddl, hprep, htx, hbatch, Conn.inDMLBatch, hmode, hne,
            Transactional, PartitionedNonAtomic, hdml, hp]
      · rcases hp : b.execSingleDMLPartitioned ss with e | n0 <;>
          simp [Conn.execContext, hcs, hddl, hprep, htx, hbatch, Conn.inDMLBatch, hmode, hne,
            Transactional, PartitionedNonAtomic, hdml, hp]
      · intro n hok
        simp [Conn.execContext, hcs, hddl, hprep, htx, hbatch, Conn.inDMLBatch, hmode, hne,
          Transactional, PartitionedNonAtomic, hdml, hok]
  · intro c htx hdml h0 h1
    rcases hbatch : c.batch with _ | bt
    · constructor <;>
        simp [Conn.execContext, hcs, hddl, hprep, htx, hbatch, Conn.inDMLBatch, h0, h1,
          resultCode, failedPrecondition]
    · simp only [Conn.inDMLBatch, htx, hbatch] at hdml
      simp at hdml
      constructor <;>
        simp [Conn.execContext, hcs, hddl, hprep, htx, hbatch, Conn.inDMLBatch, h0, h1, hdml,
          resultCode, failedPrecondition]

/-- Witness for C6: the default Transactional mode, the partitioned mode and
an out-of-range mode on concrete connections. -/
theorem exec_dml_autocommit_modes_witness :
    ((freshConn.execContext noopBackend dmlEnv updateSql).res = .ok (.result 1) ∧
      (freshConn.execContext noopBackend dmlEnv updateSql).conn.commitTs = some { v := 7 }) ∧
    (({ freshConn with autocommitDMLMode := PartitionedNonAtomic
        }.execContext noopBackend dmlEnv updateSql).res = .ok (.result 2) ∧
      ({ freshConn with autocommitDMLMode := PartitionedNonAtomic
        }.execContext noopBackend dmlEnv updateSql).conn.commitTs = none) ∧
    resultCode (badModeConn.execContext noopBackend dmlEnv updateSql).res =
      some Code.FailedPrecondition := by
  have h := exec_dml_autocommit_modes noopBackend dmlEnv updateSql (newStatement updateSql)
    rfl rfl rfl
  refine ⟨(h.1 freshConn rfl rfl rfl).2 1 { v := 7 } rfl, ?_, ?_⟩
  · have h2 := h.2.1 { freshConn with autocommitDMLMode := PartitionedNonAtomic } rfl rfl rfl
    exact ⟨h2.2.2 2 rfl, h2.2.1⟩
  · exact (h.2.2 badModeConn rfl rfl (by decide) (by decide)).1

/-- C7: StartBatchDDL fails with FailedPrecondition whenever a batch is
already open or a transaction is active, leaving the connection record
untouched, and otherwise opens an empty DDL batch. -/
theorem start_batch_ddl_preconditions :
    (∀ c : Conn, c.batch.isSome = true ∨ c.tx.isSome = true →
      (c.startBatchDDL).1 = c ∧
      resultCode (c.startBatchDDL).2 = some Code.FailedPrecondition) ∧
    (∀ c : Conn, c.batch = none → c.tx = none →
      c.startBatchDDL =
        ({ c with batch := some { tp := BatchType.ddl, statements := [] } },
         .ok .resultNoRows)) := by
  constructor
  · intro c h
    by_cases hb : c.batch.isSome = true
    · constructor <;>
        simp [Conn.startBatchDDL, hb, resultCode, failedPrecondition]
    · have ht : c.tx.isSome = true := h.resolve_left hb
      constructor <;>
        simp [Conn.startBatchDDL, hb, Conn.inTransaction, ht, resultCode, failedPrecondition]
  · intro c hb ht
    simp [Conn.startBatchDDL, hb, Conn.inTransaction, ht]

/-- Witness for C7: rejection with an open DML batch and with an active
transaction, and success on an idle connection. -/
theorem start_batch_ddl_preconditions_witness :
    ((dmlBatchConn.startBatchDDL).1 = dmlBatchConn ∧
      resultCode (dmlBatchConn.startBatchDDL).2 = some Code.FailedPrecondition) ∧
    ((roTxConn.startBatchDDL).1 = roTxConn ∧
      resultCode (roTxConn.startBatchDDL).2 = some Code.FailedPrecondition) ∧
    freshConn.startBatchDDL =
      ({ freshConn with batch := some { tp := BatchType.ddl, statements := [] } },
       .ok .resultNoRows) :=
  ⟨(start_batch_ddl_preconditions).1 dmlBatchConn (Or.inl rfl),
   (start_batch_ddl_preconditions).1 roTxConn (Or.inr rfl),
   (start_batch_ddl_preconditions).2 freshConn rfl rfl⟩

/-- C8: with no active transaction, RunBatch on an open DML batch holding
zero statements is a successful no-op — the result reports zero rows
affected, no backend request is issued, and the batch is cleared. -/
theorem run_empty_dml_batch_noop (c : Conn) (b : Backend)
    (htx : c.tx = none) (hbatch : c.batch = some { tp := BatchType.dml, statements := [] }) :
    c.runBatch b =
      { conn := { c with batch := none }, res := .ok (.result 0), calls := [] } := by
  simp [Conn.runBatch, Conn.inTransaction, htx, hbatch, Conn.runDMLBatch, Conn.execBatchDML]

/-- Witness for C8 at the concrete connection holding an empty DML batch. -/
theorem run_empty_dml_batch_noop_witness :
    dmlBatchConn.runBatch noopBackend =
      { conn := { dmlBatchConn with batch := none }, res := .ok (.result 0), calls := [] } :=
  run_empty_dml_batch_noop dmlBatchConn noopBackend rfl rfl

/-- C9: resetSession on a still-open connection with no transaction performs
exactly the reset — commit timestamp absent, batch none, retry flag enabled,
autocommit DML mode Transactional, staleness unset — and succeeds; with an
open transaction it first rolls the transaction back, performing the same
reset on success and signalling bad connection when the rollback fails. -/
theorem reset_session_spec (c : Conn) (b : Backend) (hopen : c.closed = false) :
    (c.tx = none →
      c.resetSession b =
        ({ c with commitTs := none, batch := none, retryAborts := true,
                  autocommitDMLMode := Transactional, readOnlyStaleness := { raw := 0 } },
         none)) ∧
    (c.tx.isSome = true → b.txRollback = .ok () →
      c.resetSession b =
        ({ c with tx := none, commitTs := none, batch := none, retryAborts := true,
                  autocommitDMLMode := Transactional, readOnlyStaleness := { raw := 0 } },
         none)) ∧
    (c.tx.isSome = true → ∀ e, b.txRollback = .error e →
      (c.resetSession b).2 = some Err.badConn) := by
  refine ⟨?_, ?_, ?_⟩
  · intro htx
    simp [Conn.resetSession, hopen, htx]
  · intro htx hr
    rcases hc : c.tx with _ | t
    · rw [hc] at htx; exact absurd htx (by simp)
    · simp [Conn.resetSession, hopen, hc, hr]
  · intro htx e hr
    rcases hc : c.tx with _ | t
    · rw [hc] at htx; exact absurd htx (by simp)
    · simp [Conn.resetSession, hopen, hc, hr]

/-- Witness for C9: the no-transaction reset and the rollback cases at
concrete connections and backends. -/
theorem reset_session_spec_witness :
    tsConn.resetSession noopBackend =
      ({ tsConn with commitTs := none, batch := none, retryAborts := true,
                     autocommitDMLMode := Transactional, readOnlyStaleness := { raw := 0 } },
       none) ∧
    roTxConn.resetSession noopBackend =
      ({ roTxConn with tx := none, commitTs := none, batch := none, retryAborts := true,
                       autocommitDMLMode := Transactional, readOnlyStaleness := { raw := 0 } },
       none) ∧
    (roTxConn.resetSession rollbackFailBackend).2 = some Err.badConn :=
  ⟨(reset_session_spec tsConn noopBackend rfl).1 rfl,
   (reset_session_spec roTxConn noopBackend rfl).2.1 rfl rfl,
   (reset_session_spec roTxConn rollbackFailBackend rfl).2.2 rfl
     (failedPrecondition msgNoCommitTs) rfl⟩

/-- C10: CommitTimestamp returns a FailedPrecondition error exactly while the
connection stores no last commit timestamp, and returns the stored timestamp
otherwise; the operation reads the connection without modifying it (it is a
pure function of the record). -/
theorem commit_timestamp_spec (c : Conn) :
    (c.commitTs = none →
      c.commitTimestamp = .error (failedPrecondition msgNoCommitTs) ∧
      resultCode c.commitTimestamp = some Code.FailedPrecondition) ∧
    (∀ ts, c.commitTs = some ts → c.commitTimestamp = .ok ts) := by
  constructor
  · intro h
    constructor <;> simp [Conn.commitTimestamp, h, resultCode, failedPrecondition]
  · intro ts h
    simp [Conn.commitTimestamp, h]

/-- Witness for C10: the absent and present timestamp cases on concrete
connections. -/
theorem commit_timestamp_spec_witness :
    resultCode freshConn.commitTimestamp = some Code.FailedPrecondition ∧
    tsConn.commitTimestamp = .ok { v := 9 } :=
  ⟨((commit_timestamp_spec freshConn).1 rfl).2,
   (commit_timestamp_spec tsConn).2 { v := 9 } rfl⟩

end Spanner
